import Mathlib

/-!
Shallow embedding of the Ralph loop engine (src/ralph): state model
(state.py), append-only memory log (memory.py), actuator results
(actuators.py) and the seven-phase loop engine (loop.py).

Modelling conventions, applied uniformly:
* Python floats become rationals.
* Python datetime values are never compared or computed with in the
  source; only their isoformat rendering is stored or emitted.  Each
  timestamp is therefore embedded as the String that isoformat produced,
  supplied by the environment (the Plugins record below).
* Python truthiness on Optional[str] (None and the empty string are
  falsy) is captured by the explicit helpers pyOrStr, pyStrOpt, pyOptTake.
* The memory dedup hash md5(type + colon + content) is embedded as the
  pair (type, content) itself, which the hash is a function of.
* Console printing, time.sleep and the observability callbacks (which
  return None and own no engine state) are omitted.
-/

namespace Ralph

/-- Python-style string slice s[:n], counting characters. -/
def pyTake (s : String) (n : Nat) : String := String.mk (s.data.take n)

/-- Python `opt or d` for an Optional[str]: None and "" are falsy. -/
def pyOrStr (o : Option String) (d : String) : String :=
  match o with
  | none => d
  | some s => if s = "" then d else s

/-- Python `s[:n] if s else None` for an Optional[str]. -/
def pyStrOpt (o : Option String) (n : Nat) : Option String :=
  match o with
  | none => none
  | some s => if s = "" then none else some (pyTake s n)

/-- Python `s[:n] if s else d` for an Optional[str]. -/
def pyOptTake (o : Option String) (n : Nat) (d : String) : String :=
  match o with
  | none => d
  | some s => if s = "" then d else pyTake s n

/-- Python f-string rendering of an Optional[str] (None prints as "None"). -/
def pyShowOpt (o : Option String) : String :=
  match o with
  | none => "None"
  | some s => s

/-- Python list slice l[-n:]. -/
def lastN {α : Type} (n : Nat) (l : List α) : List α := l.drop (l.length - n)

/-- Stands for the Python format string rendering a float; no theorem
observes the rendered digits. -/
def fmtFloat (q : ℚ) : String := toString q.num ++ "/" ++ toString q.den

/-- DecisionType from src/ralph/state.py. -/
inductive DecisionType where
  | cont
  | change_strategy
  | ask_clarification
  | stop_success
  | stop_failure
  | stop_max_iterations
  | stop_low_confidence
  | stop_user_interrupt
deriving DecidableEq

/-- The .value string tag of a DecisionType. -/
def DecisionType.value : DecisionType → String
  | .cont => "continue"
  | .change_strategy => "change_strategy"
  | .ask_clarification => "ask_clarification"
  | .stop_success => "stop_success"
  | .stop_failure => "stop_failure"
  | .stop_max_iterations => "stop_max_iterations"
  | .stop_low_confidence => "stop_low_confidence"
  | .stop_user_interrupt => "stop_user_interrupt"

/-- FactType from src/ralph/state.py. -/
inductive FactType where
  | observation
  | error
  | contradiction
  | assumption
  | constraint
  | open_question
deriving DecidableEq

/-- The .value string tag of a FactType. -/
def FactType.value : FactType → String
  | .observation => "observation"
  | .error => "error"
  | .contradiction => "contradiction"
  | .assumption => "assumption"
  | .constraint => "constraint"
  | .open_question => "open_question"

/-- Fact from src/ralph/state.py. -/
structure Fact where
  type : FactType
  content : String
  source : String
  confidence : ℚ := 1
  superseded : Bool := false
  superseded_by : Option String := none
  timestamp : String := ""
deriving DecidableEq

/-- Attempt from src/ralph/state.py; outcome is stored as its string tag,
exactly as the source stores result.outcome.value. -/
structure Attempt where
  iteration : Nat
  action_type : String
  action_detail : String
  outcome : String
  result : Option String := none
  failure_reason : Option String := none
  avoidance_hint : Option String := none
  timestamp : String := ""
deriving DecidableEq

/-- Decision from src/ralph/state.py. -/
structure Decision where
  type : DecisionType
  reasoning : String
  next_action : Option String := none
  confidence : ℚ := 1
deriving DecidableEq

/-- LoopState from src/ralph/state.py. -/
structure LoopState where
  loop_id : String
  created_at : String := ""
  objective : String := ""
  constraints : List String := []
  facts : List Fact := []
  attempts : List Attempt := []
  avoid_list : List String := []
  pending_questions : List String := []
  iteration : Nat := 0
  current_plan : Option String := none
  last_observation : Option String := none
  last_decision : Option Decision := none
  confidence : ℚ := 1
  consecutive_failures : Nat := 0
  stopped : Bool := false
  stop_reason : Option String := none
  final_summary : Option String := none
deriving DecidableEq

/-- LoopState.add_fact from src/ralph/state.py. -/
def LoopState.add_fact (st : LoopState) (f : Fact) : LoopState :=
  { st with facts := st.facts ++ [f] }

/-- Python `if attempt.avoidance_hint:` guard of add_attempt: the hint is
appended to avoid_list only when it is neither None nor empty. -/
def hintAppend (l : List String) (h : Option String) : List String :=
  match h with
  | none => l
  | some s => if s = "" then l else l ++ [s]

/-- LoopState.add_attempt from src/ralph/state.py: append the attempt;
on outcome "failure" increment consecutive_failures and append the
avoidance hint, otherwise reset consecutive_failures to 0. -/
def LoopState.add_attempt (st : LoopState) (a : Attempt) : LoopState :=
  if a.outcome = "failure" then
    { st with attempts := st.attempts ++ [a],
              consecutive_failures := st.consecutive_failures + 1,
              avoid_list := hintAppend st.avoid_list a.avoidance_hint }
  else
    { st with attempts := st.attempts ++ [a], consecutive_failures := 0 }

/-- LoopState.get_active_facts from src/ralph/state.py. -/
def LoopState.get_active_facts (st : LoopState) : List Fact :=
  st.facts.filter (fun f => !f.superseded)

/-- EntryType from src/ralph/memory.py. -/
inductive EntryType where
  | observation
  | normalized_fact
  | plan
  | action
  | result
  | decision
  | error
  | summary
deriving DecidableEq

/-- The .value string tag of an EntryType. -/
def EntryType.value : EntryType → String
  | .observation => "observation"
  | .normalized_fact => "normalized_fact"
  | .plan => "plan"
  | .action => "action"
  | .result => "result"
  | .decision => "decision"
  | .error => "error"
  | .summary => "summary"

/-- MemoryEntry from src/ralph/memory.py.  Metadata values are embedded
as their string renderings. -/
structure MemoryEntry where
  type : EntryType
  iteration : Nat
  phase : String
  content : String
  metadata : List (String × String) := []
  timestamp : String := ""
deriving DecidableEq

/-- The deduplication key of an entry.  The source computes a truncated
md5 of "type:content"; it is embedded as the (type, content) pair the
hash is a function of. -/
def MemoryEntry.key (e : MemoryEntry) : EntryType × String := (e.type, e.content)

/-- Memory from src/ralph/memory.py.  The Python set _seen_hashes is
embedded as a list of keys queried by membership. -/
structure Memory where
  loop_id : String
  entries : List MemoryEntry := []
  seen : List (EntryType × String) := []
deriving DecidableEq

/-- Memory.__init__ from src/ralph/memory.py. -/
def Memory.create (lid : String) : Memory :=
  { loop_id := lid, entries := [], seen := [] }

/-- Memory.append from src/ralph/memory.py: drop the entry and report
False when its dedup key was already seen, otherwise store it. -/
def Memory.append (m : Memory) (e : MemoryEntry) : Bool × Memory :=
  if e.key ∈ m.seen then (false, m)
  else (true, { m with seen := m.seen ++ [e.key], entries := m.entries ++ [e] })

/-- Memory.record_observation from src/ralph/memory.py. -/
def Memory.record_observation (m : Memory) (it : Nat) (content : String)
    (meta : List (String × String)) (ts : String) : MemoryEntry × Memory :=
  let e : MemoryEntry := { type := .observation, iteration := it, phase := "observe",
                           content := content, metadata := meta, timestamp := ts }
  (e, (m.append e).2)

/-- Memory.record_fact from src/ralph/memory.py. -/
def Memory.record_fact (m : Memory) (it : Nat) (content : String)
    (meta : List (String × String)) (ts : String) : MemoryEntry × Memory :=
  let e : MemoryEntry := { type := .normalized_fact, iteration := it, phase := "normalize",
                           content := content, metadata := meta, timestamp := ts }
  (e, (m.append e).2)

/-- Memory.record_plan from src/ralph/memory.py. -/
def Memory.record_plan (m : Memory) (it : Nat) (content : String)
    (meta : List (String × String)) (ts : String) : MemoryEntry × Memory :=
  let e : MemoryEntry := { type := .plan, iteration := it, phase := "plan",
                           content := content, metadata := meta, timestamp := ts }
  (e, (m.append e).2)

/-- Memory.record_action from src/ralph/memory.py. -/
def Memory.record_action (m : Memory) (it : Nat) (content : String)
    (meta : List (String × String)) (ts : String) : MemoryEntry × Memory :=
  let e : MemoryEntry := { type := .action, iteration := it, phase := "execute",
                           content := content, metadata := meta, timestamp := ts }
  (e, (m.append e).2)

/-- Memory.record_result from src/ralph/memory.py: the outcome keyword
argument is folded into the metadata ahead of the rest. -/
def Memory.record_result (m : Memory) (it : Nat) (content : String) (outcome : String)
    (meta : List (String × String)) (ts : String) : MemoryEntry × Memory :=
  let e : MemoryEntry := { type := .result, iteration := it, phase := "wait_capture",
                           content := content, metadata := ("outcome", outcome) :: meta,
                           timestamp := ts }
  (e, (m.append e).2)

/-- Memory.record_decision from src/ralph/memory.py. -/
def Memory.record_decision (m : Memory) (it : Nat) (content : String) (decision_type : String)
    (meta : List (String × String)) (ts : String) : MemoryEntry × Memory :=
  let e : MemoryEntry := { type := .decision, iteration := it, phase := "decide",
                           content := content,
                           metadata := ("decision_type", decision_type) :: meta,
                           timestamp := ts }
  (e, (m.append e).2)

/-- Memory.record_error from src/ralph/memory.py. -/
def Memory.record_error (m : Memory) (it : Nat) (content : String)
    (meta : List (String × String)) (ts : String) : MemoryEntry × Memory :=
  let e : MemoryEntry := { type := .error, iteration := it, phase := "error",
                           content := content, metadata := meta, timestamp := ts }
  (e, (m.append e).2)

/-- Memory.get_by_type from src/ralph/memory.py. -/
def Memory.get_by_type (m : Memory) (t : EntryType) : List MemoryEntry :=
  m.entries.filter (fun e => e.type = t)

/-- Memory.get_errors from src/ralph/memory.py. -/
def Memory.get_errors (m : Memory) : List MemoryEntry :=
  m.get_by_type .error

/-- Well-formedness of a Memory as produced by the source operations:
the seen-key set is exactly the key trace of the stored entries. -/
def Memory.WF (m : Memory) : Prop :=
  m.seen = m.entries.map MemoryEntry.key

/-- ActionOutcome from src/ralph/actuators.py (PARTIAL is named
partialRes because its source name is a Lean keyword). -/
inductive ActionOutcome where
  | success
  | failure
  | timeout
  | partialRes
deriving DecidableEq

/-- The .value string tag of an ActionOutcome. -/
def ActionOutcome.value : ActionOutcome → String
  | .success => "success"
  | .failure => "failure"
  | .timeout => "timeout"
  | .partialRes => "partial"

/-- ActionResult from src/ralph/actuators.py.  The metadata dict is
embedded as string pairs; duration as a rational. -/
structure ActionResult where
  outcome : ActionOutcome
  output : Option String := none
  error : Option String := none
  duration : ℚ := 0
  metadata : List (String × String) := []
deriving DecidableEq

/-- LoopConfig from src/ralph/loop.py (callback fields omitted: the
observability hooks return None and own no engine state). -/
structure LoopConfig where
  max_iterations : Nat := 20
  confidence_threshold : ℚ := mkRat 3 10
  max_consecutive_failures : Nat := 3
  iteration_delay : ℚ := mkRat 1 2
deriving DecidableEq

/-- IterationNarrative from src/ralph/loop.py. -/
structure IterationNarrative where
  iteration : Nat
  what_was_tried : String
  why_it_was_chosen : String
  what_happened : String
  what_comes_next : String
  timestamp : String := ""
deriving DecidableEq

/-- The environment of one loop: the bound actuator (its result per
iteration number and action, which covers stateful backends), the three
pluggable phase functions (pure functions of state and memory, as the
contract in the spec requires), and the timestamp the clock renders for
each iteration. -/
structure Plugins where
  actName : String
  act : Nat → String → ActionResult
  planner : LoopState → Memory → String
  normalizer : String → LoopState → List Fact
  decider : LoopState → ActionResult → Memory → Decision
  ts : Nat → String

/-- RalphLoop from src/ralph/loop.py: the engine-owned mutable pieces. -/
structure RalphLoop where
  config : LoopConfig
  state : LoopState
  memory : Memory
  narratives : List IterationNarrative
deriving DecidableEq

/-- RalphLoop.__init__ from src/ralph/loop.py: fresh state and memory
for the given objective, constraints and configuration (the uuid-derived
loop id and the creation timestamp are environment inputs). -/
def mkRalphLoop (objective : String) (constraints : List String) (config : LoopConfig)
    (loopId : String) (createdAt : String) : RalphLoop :=
  { config := config,
    state := { loop_id := loopId, created_at := createdAt, objective := objective,
               constraints := constraints },
    memory := Memory.create loopId,
    narratives := [] }

/-- RalphLoop._stop from src/ralph/loop.py. -/
def stopWith (reason : DecisionType) (message : String) (st : LoopState) : LoopState :=
  { st with stopped := true, stop_reason := some (reason.value ++ ": " ++ message) }

/-- RalphLoop._extract_avoidance_hint from src/ralph/loop.py. -/
def extractAvoidanceHint (result : ActionResult) : Option String :=
  match result.error with
  | none => none
  | some e => if e = "" then none else some ("Avoid: " ++ pyTake e 150)

/-- The inline conditional of phase 6: an avoidance hint is extracted
only for a failure outcome. -/
def attemptHint (result : ActionResult) : Option String :=
  if result.outcome = .failure then extractAvoidanceHint result else none

/-- The membership test on stop decision types acted on at the end of
RalphLoop._run_iteration. -/
def DecisionType.isStop : DecisionType → Bool
  | .stop_success => true
  | .stop_failure => true
  | .stop_max_iterations => true
  | .stop_low_confidence => true
  | .stop_user_interrupt => true
  | _ => false

/-- RalphLoop._default_planner from src/ralph/loop.py: every branch
returns the objective (the branches are kept to mirror the source). -/
def defaultPlanner (state : LoopState) (_memory : Memory) : String :=
  if state.iteration = 1 then state.objective
  else
    match state.attempts.getLast? with
    | some last => if last.outcome = "success" then state.objective else state.objective
    | none => state.objective

/-- RalphLoop._default_normalizer from src/ralph/loop.py: one
observation fact per raw observation. -/
def defaultNormalizer (observation : String) (state : LoopState) : List Fact :=
  [{ type := .observation, content := pyTake observation 1000,
     source := "iteration-" ++ toString state.iteration }]

/-- RalphLoop._default_decider from src/ralph/loop.py: low confidence,
then consecutive failures, then success, else continue. -/
def defaultDecider (cfg : LoopConfig) (state : LoopState) (result : ActionResult)
    (_memory : Memory) : Decision :=
  if state.confidence < cfg.confidence_threshold then
    { type := .stop_low_confidence,
      reasoning := "Confidence dropped to " ++ fmtFloat state.confidence }
  else if cfg.max_consecutive_failures ≤ state.consecutive_failures then
    { type := .stop_failure,
      reasoning := "Failed " ++ toString state.consecutive_failures ++ " times consecutively" }
  else if result.outcome = .success then
    { type := .stop_success, reasoning := "Action completed successfully" }
  else
    { type := .cont, reasoning := "No stop condition met, continuing",
      next_action := state.current_plan, confidence := state.confidence }

/-- The default plugging of RalphLoop.__init__: default planner,
normalizer and decider around a given actuator. -/
def defaultPlugins (cfg : LoopConfig) (actName : String) (act : Nat → String → ActionResult)
    (ts : Nat → String) : Plugins :=
  { actName := actName, act := act,
    planner := defaultPlanner,
    normalizer := defaultNormalizer,
    decider := fun st res mem => defaultDecider cfg st res mem,
    ts := ts }

/-- The phase-2 for-loop of RalphLoop._run_iteration: each fact is added
to state and recorded into memory. -/
def normalizePhase (it : Nat) (ts : String) :
    List Fact → LoopState → Memory → LoopState × Memory
  | [], st, m => (st, m)
  | f :: fs, st, m =>
      normalizePhase it ts fs (st.add_fact f)
        ((m.record_fact it f.content [("fact_type", f.type.value)] ts).2)

/-- RalphLoop._run_iteration from src/ralph/loop.py: increment the
iteration counter, check the iteration cap, then run the seven phases. -/
def runIteration (p : Plugins) (e : RalphLoop) : RalphLoop :=
  let st0 : LoopState := { e.state with iteration := e.state.iteration + 1 }
  let it := st0.iteration
  if e.config.max_iterations < it then
    { e with state := stopWith .stop_max_iterations "Maximum iterations reached" st0 }
  else
    let ts := p.ts it
    let observation := pyOrStr st0.last_observation ("Starting: " ++ st0.objective)
    let mem1 := (e.memory.record_observation it observation [] ts).2
    let sm := normalizePhase it ts (p.normalizer observation st0) st0 mem1
    let st1 := sm.1
    let mem2 := sm.2
    let action := p.planner st1 mem2
    let st2 : LoopState := { st1 with current_plan := some action }
    let mem3 := (mem2.record_plan it action [] ts).2
    let mem4 := (mem3.record_action it action [("actuator", p.actName)] ts).2
    let result := p.act it action
    let rc := pyOrStr result.output (pyOrStr result.error "No output")
    let mem5 := (mem4.record_result it (pyTake rc 1000) result.outcome.value
                  [("duration", fmtFloat result.duration)] ts).2
    let st3 : LoopState := { st2 with last_observation := some rc }
    let attempt : Attempt :=
      { iteration := it, action_type := p.actName, action_detail := pyTake action 500,
        outcome := result.outcome.value,
        result := pyStrOpt result.output 1000,
        failure_reason := result.error,
        avoidance_hint := attemptHint result,
        timestamp := ts }
    let st4 := st3.add_attempt attempt
    let decision := p.decider st4 result mem5
    let st5 : LoopState := { st4 with last_decision := some decision }
    let mem6 := (mem5.record_decision it decision.reasoning decision.type.value [] ts).2
    let narrative : IterationNarrative :=
      { iteration := it, what_was_tried := pyTake action 200,
        why_it_was_chosen := pyOptTake st5.current_plan 200 "Initial action",
        what_happened := result.outcome.value ++ ": " ++ pyTake rc 200,
        what_comes_next := pyTake decision.reasoning 200, timestamp := ts }
    let st6 := if decision.type.isStop then stopWith decision.type decision.reasoning st5
               else st5
    { e with state := st6, memory := mem6, narratives := e.narratives ++ [narrative] }

/-- RalphLoop._generate_summary from src/ralph/loop.py. -/
def generateSummary (e : RalphLoop) : String :=
  let lines0 : List String :=
    ["═══ Ralph Loop Summary ═══",
     "ID: " ++ e.state.loop_id,
     "Objective: " ++ e.state.objective,
     "Iterations: " ++ toString e.state.iteration,
     "Outcome: " ++ pyShowOpt e.state.stop_reason,
     "", "Attempts:"]
  let lines1 := lines0 ++ (lastN 5 e.state.attempts).map (fun a =>
    let status := if a.outcome = "success" then "✓" else "✗"
    "  " ++ status ++ " [" ++ toString a.iteration ++ "] " ++ pyTake a.action_detail 60 ++ "...")
  let errors := e.memory.get_errors
  let lines2 := if errors.isEmpty then lines1 else
    lines1 ++ ["", "Errors (" ++ toString errors.length ++ "):"] ++
      (lastN 3 errors).map (fun er => "  - " ++ pyTake er.content 80)
  let lines3 := if e.state.avoid_list.isEmpty then lines2 else
    lines2 ++ ["", "Avoid list:"] ++ (lastN 5 e.state.avoid_list).map (fun i => "  - " ++ pyTake i 60)
  String.intercalate "\n" lines3

/-- The while-loop of RalphLoop.run, with explicit fuel.  The theorem
for C2 shows that max_iterations + 1 units of fuel always reach the
stopped state from a fresh loop, so run below is the full while-loop. -/
def runLoop (p : Plugins) : Nat → RalphLoop → RalphLoop
  | 0, e => e
  | fuel + 1, e => if e.state.stopped then e else runLoop p fuel (runIteration p e)

/-- RalphLoop.run from src/ralph/loop.py: iterate until stopped, then
populate final_summary. -/
def run (p : Plugins) (e : RalphLoop) : RalphLoop :=
  let e1 := runLoop p (e.config.max_iterations + 1) e
  { e1 with state := { e1.state with final_summary := some (generateSummary e1) } }

/-- RalphLoop.run_single_iteration from src/ralph/loop.py. -/
def runSingleIteration (p : Plugins) (e : RalphLoop) : RalphLoop :=
  if e.state.stopped then e else runIteration p e

/-- RalphLoop.stop from src/ralph/loop.py. -/
def stopManual (reason : String) (e : RalphLoop) : RalphLoop :=
  { e with state := stopWith .stop_user_interrupt reason e.state }

/-- A JSON-like value, the codomain of the structured to_dict dumps. -/
inductive JValue where
  | null
  | str (s : String)
  | num (q : ℚ)
  | bool (b : Bool)
  | arr (l : List JValue)
  | obj (l : List (String × JValue))

/-- Rendering of an Optional[str] field in a dict dump. -/
def optJ : Option String → JValue
  | none => .null
  | some s => .str s

/-- Fact.to_dict from src/ralph/state.py. -/
def Fact.to_dict (f : Fact) : List (String × JValue) :=
  [("type", .str f.type.value), ("content", .str f.content), ("source", .str f.source),
   ("confidence", .num f.confidence), ("superseded", .bool f.superseded),
   ("superseded_by", optJ f.superseded_by), ("timestamp", .str f.timestamp)]

/-- Attempt.to_dict from src/ralph/state.py. -/
def Attempt.to_dict (a : Attempt) : List (String × JValue) :=
  [("iteration", .num a.iteration), ("action_type", .str a.action_type),
   ("action_detail", .str a.action_detail), ("outcome", .str a.outcome),
   ("result", optJ a.result), ("failure_reason", optJ a.failure_reason),
   ("avoidance_hint", optJ a.avoidance_hint), ("timestamp", .str a.timestamp)]

/-- LoopState.to_dict from src/ralph/state.py, with exactly the keys the
source emits (last_observation and last_decision do not appear there). -/
def LoopState.to_dict (st : LoopState) : List (String × JValue) :=
  [("loop_id", .str st.loop_id), ("created_at", .str st.created_at),
   ("objective", .str st.objective),
   ("constraints", .arr (st.constraints.map JValue.str)),
   ("facts", .arr (st.facts.map (fun f => JValue.obj f.to_dict))),
   ("attempts", .arr (st.attempts.map (fun a => JValue.obj a.to_dict))),
   ("avoid_list", .arr (st.avoid_list.map JValue.str)),
   ("pending_questions", .arr (st.pending_questions.map JValue.str)),
   ("iteration", .num st.iteration), ("current_plan", optJ st.current_plan),
   ("confidence", .num st.confidence),
   ("consecutive_failures", .num st.consecutive_failures),
   ("stopped", .bool st.stopped), ("stop_reason", optJ st.stop_reason),
   ("final_summary", optJ st.final_summary)]

/-- Reference decision rule assembled from the words of the spec: stop
with low confidence when confidence is below the threshold, else stop
with failure when consecutive_failures is at least the maximum, else
stop with success on a success outcome, else continue. -/
def deciderSpecType (cfg : LoopConfig) (st : LoopState) (res : ActionResult) : DecisionType :=
  if st.confidence < cfg.confidence_threshold then .stop_low_confidence
  else if cfg.max_consecutive_failures ≤ st.consecutive_failures then .stop_failure
  else if res.outcome = .success then .stop_success
  else .cont

/-- A stopped state always carries a non-empty stop reason. -/
def stopGood (st : LoopState) : Prop :=
  st.stopped = true → ∃ s, st.stop_reason = some s ∧ s ≠ ""

/-- The engine states reachable through the public operations of
RalphLoop: construction, run, run_single_iteration, stop, and the
iteration step run inside the while-loop. -/
inductive Reachable (p : Plugins) : RalphLoop → Prop where
  | create (obj : String) (cons : List String) (cfg : LoopConfig) (lid cat : String) :
      Reachable p (mkRalphLoop obj cons cfg lid cat)
  | iter (e : RalphLoop) : Reachable p e → Reachable p (runIteration p e)
  | single (e : RalphLoop) : Reachable p e → Reachable p (runSingleIteration p e)
  | manual (e : RalphLoop) (reason : String) : Reachable p e → Reachable p (stopManual reason e)
  | runCall (e : RalphLoop) : Reachable p e → Reachable p (run p e)

/-- A stub actuator result with outcome partial and no output or error;
it satisfies no default stop condition. -/
def partialStubResult : ActionResult := { outcome := .partialRes }

/-- A stub actuator result with outcome failure carrying an error text. -/
def failureStubResult (err : String) : ActionResult :=
  { outcome := .failure, error := some err }

/-- Scenario of C1: max_iterations 1 and an actuator that always
reports partial, so that only the iteration cap can stop the loop. -/
def cfgOneIter : LoopConfig := { max_iterations := 1 }

/-- The default-plugged loop of the C1 scenario. -/
def pluginsC1 : Plugins :=
  defaultPlugins cfgOneIter "stub" (fun _ _ => partialStubResult) (fun _ => "T")

/-- The fresh engine of the C1 scenario. -/
def engineC1 : RalphLoop := mkRalphLoop "echo hello" [] cfgOneIter "ralph-c1" "T0"

/-- The default-plugged loop of the C2 scenario (same stub actuator,
its own copy so the two claims do not share artifacts). -/
def pluginsC2 : Plugins :=
  defaultPlugins cfgOneIter "stub" (fun _ _ => partialStubResult) (fun _ => "T")

/-- The fresh engine of the C2 scenario. -/
def engineC2 : RalphLoop := mkRalphLoop "echo hello" [] cfgOneIter "ralph-c2" "T0"

/-- An engine whose iteration counter already sits at the cap, used to
witness that the cap check fires regardless of the decider. -/
def engineC2cap : RalphLoop :=
  mkRalphLoop "echo hello" [] { max_iterations := 0 } "ralph-c2w" "T0"

/-- Configuration of the C3 scenario: max_consecutive_failures 2. -/
def cfgTwoFailures : LoopConfig := { max_consecutive_failures := 2 }

/-- The default-plugged loop of the C3 scenario: the stub actuator
always fails with the given error text. -/
def pluginsC3 (err : String) : Plugins :=
  defaultPlugins cfgTwoFailures "stub" (fun _ _ => failureStubResult err) (fun _ => "T")

/-- The fresh engine of the C3 scenario. -/
def engineC3 : RalphLoop := mkRalphLoop "run tests" [] cfgTwoFailures "ralph-c3" "T0"

/-- Decidability of the memory well-formedness check. -/
instance (m : Memory) : Decidable m.WF :=
  inferInstanceAs (Decidable (m.seen = m.entries.map MemoryEntry.key))

/-- The default configuration of LoopConfig. -/
def cfgDefault : LoopConfig := {}

/-- A stopped engine reached by an external stop call (C7 witness). -/
def engineC7 : RalphLoop := stopManual "halt" (mkRalphLoop "obj" [] {} "ralph-c7" "T0")

/-- A default-plugged environment for the C7 witness. -/
def pluginsC7 : Plugins := defaultPlugins {} "stub" (fun _ _ => partialStubResult) (fun _ => "T")

/-- A stopped engine reached by an external stop call (C10 witness). -/
def engineC10 : RalphLoop := stopManual "done" (mkRalphLoop "obj" [] {} "ralph-c10" "T0")

/-- A default-plugged environment for the C10 witness. -/
def pluginsC10 : Plugins := defaultPlugins {} "stub" (fun _ _ => partialStubResult) (fun _ => "T")

/-- A memory holding one observation entry (C4 witness). -/
def memC4 : Memory := ((Memory.create "ralph-c4").record_observation 1 "hello" [] "T").2

/-- A later-iteration entry repeating the stored (type, content) pair. -/
def entryC4 : MemoryEntry :=
  { type := .observation, iteration := 2, phase := "observe", content := "hello",
    metadata := [], timestamp := "T2" }

/-- A fresh state for the C5 witness. -/
def stateC5 : LoopState := { loop_id := "ralph-c5" }

/-- A success result for the C5 witness. -/
def resultC5 : ActionResult := { outcome := .success }

/-- An empty memory for the C5 witness. -/
def memC5 : Memory := Memory.create "ralph-c5"

/-- The configuration of C6: max_consecutive_failures 3. -/
def cfgC6 : LoopConfig := { max_consecutive_failures := 3 }

/-- A state with three consecutive failures and confidence below the
default threshold. -/
def stateC6 : LoopState :=
  { loop_id := "ralph-c6", confidence := mkRat 1 10, consecutive_failures := 3 }

/-- A state with three consecutive failures and default confidence. -/
def stateC6w : LoopState := { loop_id := "ralph-c6w", consecutive_failures := 3 }

/-- A failure result for C6. -/
def resultC6 : ActionResult := { outcome := .failure }

/-- An empty memory for C6. -/
def memC6 : Memory := Memory.create "ralph-c6"

/-- A state carrying both a last observation and a last decision. -/
def stateC8 : LoopState :=
  { loop_id := "ralph-c8", last_observation := some "seen output",
    last_decision := some { type := .cont, reasoning := "keep going" } }

/-- A memory holding one observation entry (C9 witness). -/
def memC9 : Memory := ((Memory.create "ralph-c9").record_observation 1 "obs" [] "T").2


theorem normalizePhase_fst (it : Nat) (ts : String) (fs : List Fact) (st : LoopState) (m : Memory) :
    (normalizePhase it ts fs st m).1 = { st with facts := st.facts ++ fs } := by
  induction fs generalizing st m with
  | nil => simp [normalizePhase]
  | cons f fs ih => simp [normalizePhase, LoopState.add_fact, ih]

theorem stopWith_iteration (r : DecisionType) (m : String) (st : LoopState) :
    (stopWith r m st).iteration = st.iteration := rfl

theorem stopWith_stopped (r : DecisionType) (m : String) (st : LoopState) :
    (stopWith r m st).stopped = true := rfl

theorem stopWith_stop_reason (r : DecisionType) (m : String) (st : LoopState) :
    (stopWith r m st).stop_reason = some (r.value ++ ": " ++ m) := rfl

theorem add_attempt_iteration (st : LoopState) (a : Attempt) :
    (st.add_attempt a).iteration = st.iteration := by
  unfold LoopState.add_attempt
  split <;> rfl

theorem add_attempt_stopped (st : LoopState) (a : Attempt) :
    (st.add_attempt a).stopped = st.stopped := by
  unfold LoopState.add_attempt
  split <;> rfl

theorem add_attempt_stop_reason (st : LoopState) (a : Attempt) :
    (st.add_attempt a).stop_reason = st.stop_reason := by
  unfold LoopState.add_attempt
  split <;> rfl

theorem runIteration_config (p : Plugins) (e : RalphLoop) :
    (runIteration p e).config = e.config := by
  simp only [runIteration]
  split <;> rfl

theorem runIteration_iteration (p : Plugins) (e : RalphLoop) :
    (runIteration p e).state.iteration = e.state.iteration + 1 := by
  simp only [runIteration]
  split
  · simp [stopWith_iteration]
  · simp [apply_ite LoopState.iteration, stopWith_iteration, add_attempt_iteration,
      normalizePhase_fst]

theorem runIteration_cap (p : Plugins) (e : RalphLoop)
    (h : e.config.max_iterations ≤ e.state.iteration) :
    runIteration p e =
      { e with
        state := stopWith .stop_max_iterations "Maximum iterations reached"
                   ({ e.state with iteration := e.state.iteration + 1 }) } := by
  have hlt : e.config.max_iterations < e.state.iteration + 1 := Nat.lt_succ_of_le h
  simp only [runIteration]
  rw [if_pos hlt]

theorem runLoop_of_stopped (p : Plugins) (fuel : Nat) (e : RalphLoop)
    (h : e.state.stopped = true) : runLoop p fuel e = e := by
  cases fuel with
  | zero => rfl
  | succ n => simp [runLoop, h]

theorem append_ne_empty (a b : String) (h : a ≠ "") : a ++ b ≠ "" := by
  intro hc
  apply h
  have hd : (a ++ b).data = [] := by rw [hc]
  rw [String.data_append] at hd
  have h2 := List.append_eq_nil.mp hd
  cases a
  simp_all

theorem value_ne_empty (r : DecisionType) : r.value ≠ "" := by
  cases r <;> decide

theorem stopWith_good (r : DecisionType) (m : String) (st : LoopState) :
    stopGood (stopWith r m st) := by
  intro _
  refine ⟨r.value ++ ": " ++ m, stopWith_stop_reason r m st, ?_⟩
  exact append_ne_empty _ _ (append_ne_empty _ _ (value_ne_empty r))

theorem runIteration_stopGood (p : Plugins) (e : RalphLoop) (h : stopGood e.state) :
    stopGood (runIteration p e).state := by
  simp only [runIteration]
  split
  · exact stopWith_good _ _ _
  · split
    · exact stopWith_good _ _ _
    · intro hstop
      simp only [add_attempt_stopped, normalizePhase_fst] at hstop
      obtain ⟨s, hsr, hne⟩ := h hstop
      refine ⟨s, ?_, hne⟩
      simpa [add_attempt_stop_reason, normalizePhase_fst] using hsr

theorem runLoop_stopGood (p : Plugins) (fuel : Nat) (e : RalphLoop) (h : stopGood e.state) :
    stopGood (runLoop p fuel e).state := by
  induction fuel generalizing e with
  | zero => exact h
  | succ n ih =>
    rw [runLoop]
    split
    · exact h
    · exact ih _ (runIteration_stopGood p e h)

theorem run_stopGood (p : Plugins) (e : RalphLoop) (h : stopGood e.state) :
    stopGood (run p e).state := by
  intro hstop
  have h2 := runLoop_stopGood p (e.config.max_iterations + 1) e h
  simp only [run] at hstop ⊢
  exact h2 hstop

theorem runLoop_reaches_stop (p : Plugins) :
    ∀ (fuel : Nat) (e : RalphLoop), e.config.max_iterations + 1 ≤ e.state.iteration + fuel →
      1 ≤ fuel → (runLoop p fuel e).state.stopped = true := by
  intro fuel
  induction fuel with
  | zero => intro e _ h2; omega
  | succ n ih =>
    intro e h1 _
    rw [runLoop]
    by_cases hs : e.state.stopped = true
    · simp [hs]
    · simp only [hs, if_false, Bool.false_eq_true]
      cases n with
      | zero =>
        have hcap : e.config.max_iterations ≤ e.state.iteration := by omega
        rw [runIteration_cap p e hcap]
        simp [runLoop, stopWith_stopped]
      | succ k =>
        by_cases hs2 : (runIteration p e).state.stopped = true
        · rw [runLoop_of_stopped _ _ _ hs2]
          exact hs2
        · apply ih
          · rw [runIteration_config, runIteration_iteration]
            omega
          · omega

theorem runLoop_iteration_le (p : Plugins) :
    ∀ (fuel : Nat) (e : RalphLoop),
      e.state.iteration + fuel ≤ e.config.max_iterations + 1 →
      (runLoop p fuel e).state.iteration ≤ e.config.max_iterations + 1 := by
  intro fuel
  induction fuel with
  | zero => intro e h; simpa [runLoop] using by omega
  | succ n ih =>
    intro e h
    rw [runLoop]
    by_cases hs : e.state.stopped = true
    · simp [hs]; omega
    · simp only [hs, if_false, Bool.false_eq_true]
      have h2 := ih (runIteration p e)
      rw [runIteration_config, runIteration_iteration] at h2
      exact h2 (by omega)

theorem reachable_stopGood (p : Plugins) (e : RalphLoop) (h : Reachable p e) :
    stopGood e.state := by
  induction h with
  | create obj cons cfg lid cat =>
    intro hstop
    simp [mkRalphLoop] at hstop
  | iter e _ ih => exact runIteration_stopGood p e ih
  | single e _ ih =>
    rw [runSingleIteration]
    split
    · exact ih
    · exact runIteration_stopGood p e ih
  | manual e reason _ _ => exact stopWith_good _ _ _
  | runCall e _ ih => exact run_stopGood p e ih

/-- C1 (counterexample): with max_iterations 1 and a stub actuator that
always reports partial, the run ends with the iteration counter at 2,
exceeding the configured max_iterations. -/
theorem c1_final_iteration_bound_counterexample :
    ¬ ((run pluginsC1 engineC1).state.iteration ≤ engineC1.config.max_iterations) := by
  decide

/-- C1 (amended): for every actuator and pluggable components, the final
iteration counter of a run never exceeds max_iterations + 1. -/
theorem c1_final_iteration_bound_amended (p : Plugins) (obj : String) (cons : List String)
    (cfg : LoopConfig) (lid cat : String) :
    (run p (mkRalphLoop obj cons cfg lid cat)).state.iteration ≤ cfg.max_iterations + 1 := by
  have h := runLoop_iteration_le p (cfg.max_iterations + 1) (mkRalphLoop obj cons cfg lid cat)
    (by simp [mkRalphLoop])
  simpa [run, mkRalphLoop] using h

/-- C2: run always terminates: from a fresh loop, max_iterations + 1
rounds of the while-loop body always reach the stopped state whatever
the actuator and pluggable components; once the counter has passed the
cap, the next iteration stops with stop_max_iterations before phase 1,
regardless of the decider; with max_iterations 1 and a stub actuator
always returning partial, the run stops with stop_max_iterations after
one fully executed iteration. -/
theorem c2_termination_and_cap :
    (∀ (p : Plugins) (obj : String) (cons : List String) (cfg : LoopConfig) (lid cat : String),
      (runLoop p (cfg.max_iterations + 1) (mkRalphLoop obj cons cfg lid cat)).state.stopped
        = true) ∧
    (∀ (p : Plugins) (e : RalphLoop), e.config.max_iterations ≤ e.state.iteration →
      (runIteration p e).state.stopped = true ∧
      (runIteration p e).state.stop_reason =
        some "stop_max_iterations: Maximum iterations reached") ∧
    ((run pluginsC2 engineC2).state.stopped = true ∧
     (run pluginsC2 engineC2).state.stop_reason =
       some "stop_max_iterations: Maximum iterations reached" ∧
     (run pluginsC2 engineC2).state.attempts.length = 1) := by
  refine ⟨?_, ?_, ?_⟩
  · intro p obj cons cfg lid cat
    apply runLoop_reaches_stop
    · simp [mkRalphLoop]
    · omega
  · intro p e h
    rw [runIteration_cap p e h]
    exact ⟨rfl, rfl⟩
  · exact ⟨by decide, by decide, by decide⟩

/-- C2 (witness): a loop whose counter sits at the cap is stopped by the
cap check with the stop_max_iterations reason. -/
theorem c2_termination_and_cap_witness :
    engineC2cap.config.max_iterations ≤ engineC2cap.state.iteration ∧
    ((runIteration pluginsC2 engineC2cap).state.stopped = true ∧
     (runIteration pluginsC2 engineC2cap).state.stop_reason =
       some "stop_max_iterations: Maximum iterations reached") :=
  ⟨by decide, c2_termination_and_cap.2.1 pluginsC2 engineC2cap (by decide)⟩

/-- C7: a reachable engine state with stopped true carries a non-empty
stop reason; run_single_iteration on a stopped loop returns it
unchanged; run on a stopped loop leaves the iteration counter, the
attempts, the memory and the narratives untouched. -/
theorem c7_stopped_terminal :
    (∀ (p : Plugins) (e : RalphLoop), Reachable p e → e.state.stopped = true →
      ∃ s, e.state.stop_reason = some s ∧ s ≠ "") ∧
    (∀ (p : Plugins) (e : RalphLoop), e.state.stopped = true → runSingleIteration p e = e) ∧
    (∀ (p : Plugins) (e : RalphLoop), e.state.stopped = true →
      (run p e).state.iteration = e.state.iteration ∧
      (run p e).state.attempts = e.state.attempts ∧
      (run p e).memory = e.memory ∧
      (run p e).narratives = e.narratives) := by
  refine ⟨?_, ?_, ?_⟩
  · intro p e hr hs
    exact reachable_stopGood p e hr hs
  · intro p e hs
    simp [runSingleIteration, hs]
  · intro p e hs
    have h1 : runLoop p (e.config.max_iterations + 1) e = e := runLoop_of_stopped _ _ _ hs
    simp [run, h1]

/-- C7 (witness): a stopped loop reached by an external stop call has a
non-empty stop reason and is left unchanged by further operations. -/
theorem c7_stopped_terminal_witness :
    engineC7.state.stopped = true ∧
    (∃ s, engineC7.state.stop_reason = some s ∧ s ≠ "") ∧
    runSingleIteration pluginsC7 engineC7 = engineC7 ∧
    (run pluginsC7 engineC7).state.iteration = engineC7.state.iteration :=
  ⟨rfl,
   c7_stopped_terminal.1 pluginsC7 engineC7
     (Reachable.manual _ "halt" (Reachable.create "obj" [] {} "ralph-c7" "T0")) rfl,
   c7_stopped_terminal.2.1 pluginsC7 engineC7 rfl,
   (c7_stopped_terminal.2.2 pluginsC7 engineC7 rfl).1⟩

/-- C10: run_single_iteration on a loop whose state is already stopped
returns the engine unchanged: iteration, facts, attempts, avoid_list,
memory entries and narratives are all exactly as they were. -/
theorem c10_single_iteration_noop (p : Plugins) (e : RalphLoop) (h : e.state.stopped = true) :
    runSingleIteration p e = e ∧
    (runSingleIteration p e).state.iteration = e.state.iteration ∧
    (runSingleIteration p e).state.facts = e.state.facts ∧
    (runSingleIteration p e).state.attempts = e.state.attempts ∧
    (runSingleIteration p e).state.avoid_list = e.state.avoid_list ∧
    (runSingleIteration p e).memory.entries = e.memory.entries ∧
    (runSingleIteration p e).narratives = e.narratives := by
  have h1 : runSingleIteration p e = e := by simp [runSingleIteration, h]
  exact ⟨h1, by rw [h1], by rw [h1], by rw [h1], by rw [h1], by rw [h1], by rw [h1]⟩

/-- C10 (witness): a concrete stopped loop is returned unchanged. -/
theorem c10_single_iteration_noop_witness :
    engineC10.state.stopped = true ∧ runSingleIteration pluginsC10 engineC10 = engineC10 :=
  ⟨rfl, (c10_single_iteration_noop pluginsC10 engineC10 rfl).1⟩

/-- C4: Memory.append returns false and leaves the memory unchanged
exactly when the appended entry repeats the (type, content) pair of an
entry already in the log; the criterion never looks at the iteration
field, so the deduplication is global across the whole run. -/
theorem c4_append_dedup (m : Memory) (entry : MemoryEntry) (hwf : m.WF) :
    ((m.append entry).1 = false ∧ (m.append entry).2 = m) ↔
      ∃ e ∈ m.entries, e.type = entry.type ∧ e.content = entry.content := by
  unfold Memory.append
  by_cases hk : entry.key ∈ m.seen
  · rw [if_pos hk]
    constructor
    · intro _
      rw [Memory.WF] at hwf
      rw [hwf] at hk
      obtain ⟨e, he, hkey⟩ := List.mem_map.mp hk
      exact ⟨e, he, congrArg Prod.fst hkey, congrArg Prod.snd hkey⟩
    · intro _
      exact ⟨rfl, rfl⟩
  · rw [if_neg hk]
    constructor
    · intro hfalse
      exact absurd hfalse.1 (by simp)
    · intro ⟨e, he, ht, hc⟩
      apply absurd _ hk
      rw [Memory.WF] at hwf
      rw [hwf]
      refine List.mem_map.mpr ⟨e, he, ?_⟩
      simp [MemoryEntry.key, ht, hc]

/-- C4 (witness): a second observation with the same content in a later
iteration is reported as a duplicate and leaves the log unchanged. -/
theorem c4_append_dedup_witness :
    memC4.WF ∧
    (((memC4.append entryC4).1 = false ∧ (memC4.append entryC4).2 = memC4) ↔
      ∃ e ∈ memC4.entries, e.type = entryC4.type ∧ e.content = entryC4.content) :=
  ⟨by decide, c4_append_dedup memC4 entryC4 (by decide)⟩

/-- C5: the default decider computes exactly the reference decision rule
of the spec, in its priority order, and in particular returns
stop_success for a success outcome when confidence is at or above the
threshold and consecutive failures are below the maximum. -/
theorem c5_default_decider_spec :
    (∀ (cfg : LoopConfig) (st : LoopState) (res : ActionResult) (mem : Memory),
      (defaultDecider cfg st res mem).type = deciderSpecType cfg st res) ∧
    (∀ (cfg : LoopConfig) (st : LoopState) (res : ActionResult) (mem : Memory),
      res.outcome = .success → cfg.confidence_threshold ≤ st.confidence →
      st.consecutive_failures < cfg.max_consecutive_failures →
      (defaultDecider cfg st res mem).type = .stop_success) := by
  constructor
  · intro cfg st res mem
    unfold defaultDecider deciderSpecType
    split_ifs <;> rfl
  · intro cfg st res mem ho hc hf
    unfold defaultDecider
    rw [if_neg (not_lt.mpr hc), if_neg (not_le.mpr hf), if_pos ho]

/-- C5 (witness): the default configuration with a fresh state and a
success outcome yields stop_success. -/
theorem c5_default_decider_spec_witness :
    resultC5.outcome = .success ∧
    cfgDefault.confidence_threshold ≤ stateC5.confidence ∧
    stateC5.consecutive_failures < cfgDefault.max_consecutive_failures ∧
    (defaultDecider cfgDefault stateC5 resultC5 memC5).type = .stop_success :=
  ⟨rfl, by decide, by decide,
   c5_default_decider_spec.2 cfgDefault stateC5 resultC5 memC5 rfl (by decide) (by decide)⟩

/-- C6 (counterexample): a state with consecutive_failures 3 under
max_consecutive_failures 3 but confidence 1/10, below the default
threshold 3/10, makes the default decider return stop_low_confidence
rather than stop_failure. -/
theorem c6_three_failures_counterexample :
    stateC6.consecutive_failures = 3 ∧ cfgC6.max_consecutive_failures = 3 ∧
    (defaultDecider cfgC6 stateC6 resultC6 memC6).type ≠ DecisionType.stop_failure ∧
    (defaultDecider cfgC6 stateC6 resultC6 memC6).type = DecisionType.stop_low_confidence :=
  ⟨rfl, rfl, by decide, by decide⟩

/-- C6 (amended): for every state with consecutive_failures 3 under
max_consecutive_failures 3 whose confidence is at or above the
threshold, the default decider returns stop_failure, independent of the
latest action result. -/
theorem c6_three_failures_amended (cfg : LoopConfig) (st : LoopState) (res : ActionResult)
    (mem : Memory) (h1 : st.consecutive_failures = 3) (h2 : cfg.max_consecutive_failures = 3)
    (h3 : cfg.confidence_threshold ≤ st.confidence) :
    (defaultDecider cfg st res mem).type = .stop_failure := by
  unfold defaultDecider
  rw [if_neg (not_lt.mpr h3), if_pos (by omega)]

/-- C6 (amended, witness): a concrete such state under the default
threshold stops with stop_failure. -/
theorem c6_three_failures_amended_witness :
    stateC6w.consecutive_failures = 3 ∧ cfgC6.max_consecutive_failures = 3 ∧
    cfgC6.confidence_threshold ≤ stateC6w.confidence ∧
    (defaultDecider cfgC6 stateC6w resultC6 memC6).type = .stop_failure :=
  ⟨rfl, rfl, by decide,
   c6_three_failures_amended cfgC6 stateC6w resultC6 memC6 rfl rfl (by decide)⟩

/-- C8 (counterexample): the dict dump of a state carrying a
last_observation and a last_decision contains neither key, so the dump
does not cover every field of the data model. -/
theorem c8_to_dict_counterexample :
    stateC8.last_observation ≠ none ∧ stateC8.last_decision ≠ none ∧
    "last_observation" ∉ (stateC8.to_dict).map Prod.fst ∧
    "last_decision" ∉ (stateC8.to_dict).map Prod.fst := by
  exact ⟨by decide, by decide, by decide, by decide⟩

/-- C8 (amended): the dict dump of a LoopState contains every field of
the data model except last_observation and last_decision (and adds
created_at); facts and attempts are dumped in full with enum values as
string tags and the stored timestamp strings. -/
theorem c8_to_dict_amended (st : LoopState) :
    (st.to_dict).map Prod.fst =
      ["loop_id", "created_at", "objective", "constraints", "facts", "attempts",
       "avoid_list", "pending_questions", "iteration", "current_plan", "confidence",
       "consecutive_failures", "stopped", "stop_reason", "final_summary"] ∧
    ("facts", JValue.arr (st.facts.map (fun f => JValue.obj f.to_dict))) ∈ st.to_dict ∧
    ("attempts", JValue.arr (st.attempts.map (fun a => JValue.obj a.to_dict))) ∈ st.to_dict ∧
    ("stopped", JValue.bool st.stopped) ∈ st.to_dict ∧
    (∀ f : Fact, ("type", JValue.str f.type.value) ∈ f.to_dict ∧
                 ("timestamp", JValue.str f.timestamp) ∈ f.to_dict) ∧
    (∀ a : Attempt, ("outcome", JValue.str a.outcome) ∈ a.to_dict ∧
                    ("timestamp", JValue.str a.timestamp) ∈ a.to_dict) := by
  refine ⟨rfl, ?_, ?_, ?_, fun f => ⟨?_, ?_⟩, fun a => ⟨?_, ?_⟩⟩ <;>
    simp [LoopState.to_dict, Fact.to_dict, Attempt.to_dict]

/-- C9: every record helper returns the freshly constructed MemoryEntry
whether or not it was stored: when the entry duplicates an already seen
(type, content) key the log is left unchanged but the same entry is
still returned, and the boolean report of append is discarded. -/
theorem c9_record_returns_entry :
    (∀ (m : Memory) (it : Nat) (c : String) (meta : List (String × String)) (ts : String),
      (m.record_observation it c meta ts).1 =
        { type := .observation, iteration := it, phase := "observe", content := c,
          metadata := meta, timestamp := ts } ∧
      ((EntryType.observation, c) ∈ m.seen → (m.record_observation it c meta ts).2 = m)) ∧
    (∀ (m : Memory) (it : Nat) (c : String) (meta : List (String × String)) (ts : String),
      (m.record_fact it c meta ts).1 =
        { type := .normalized_fact, iteration := it, phase := "normalize", content := c,
          metadata := meta, timestamp := ts } ∧
      ((EntryType.normalized_fact, c) ∈ m.seen → (m.record_fact it c meta ts).2 = m)) ∧
    (∀ (m : Memory) (it : Nat) (c : String) (meta : List (String × String)) (ts : String),
      (m.record_plan it c meta ts).1 =
        { type := .plan, iteration := it, phase := "plan", content := c,
          metadata := meta, timestamp := ts } ∧
      ((EntryType.plan, c) ∈ m.seen → (m.record_plan it c meta ts).2 = m)) ∧
    (∀ (m : Memory) (it : Nat) (c : String) (meta : List (String × String)) (ts : String),
      (m.record_action it c meta ts).1 =
        { type := .action, iteration := it, phase := "execute", content := c,
          metadata := meta, timestamp := ts } ∧
      ((EntryType.action, c) ∈ m.seen → (m.record_action it c meta ts).2 = m)) ∧
    (∀ (m : Memory) (it : Nat) (c outcome : String) (meta : List (String × String))
        (ts : String),
      (m.record_result it c outcome meta ts).1 =
        { type := .result, iteration := it, phase := "wait_capture", content := c,
          metadata := ("outcome", outcome) :: meta, timestamp := ts } ∧
      ((EntryType.result, c) ∈ m.seen → (m.record_result it c outcome meta ts).2 = m)) ∧
    (∀ (m : Memory) (it : Nat) (c dt : String) (meta : List (String × String)) (ts : String),
      (m.record_decision it c dt meta ts).1 =
        { type := .decision, iteration := it, phase := "decide", content := c,
          metadata := ("decision_type", dt) :: meta, timestamp := ts } ∧
      ((EntryType.decision, c) ∈ m.seen → (m.record_decision it c dt meta ts).2 = m)) ∧
    (∀ (m : Memory) (it : Nat) (c : String) (meta : List (String × String)) (ts : String),
      (m.record_error it c meta ts).1 =
        { type := .error, iteration := it, phase := "error", content := c,
          metadata := meta, timestamp := ts } ∧
      ((EntryType.error, c) ∈ m.seen → (m.record_error it c meta ts).2 = m)) := by
  refine ⟨fun m it c meta ts => ⟨rfl, fun h => ?_⟩, fun m it c meta ts => ⟨rfl, fun h => ?_⟩,
    fun m it c meta ts => ⟨rfl, fun h => ?_⟩, fun m it c meta ts => ⟨rfl, fun h => ?_⟩,
    fun m it c outcome meta ts => ⟨rfl, fun h => ?_⟩,
    fun m it c dt meta ts => ⟨rfl, fun h => ?_⟩,
    fun m it c meta ts => ⟨rfl, fun h => ?_⟩⟩ <;>
  · simp [Memory.record_observation, Memory.record_fact, Memory.record_plan,
      Memory.record_action, Memory.record_result, Memory.record_decision,
      Memory.record_error, Memory.append, MemoryEntry.key, h]

/-- C9 (witness): recording a duplicate observation returns the new
entry while leaving the stored log unchanged. -/
theorem c9_record_returns_entry_witness :
    ((EntryType.observation, "obs") ∈ memC9.seen) ∧
    ((memC9.record_observation 2 "obs" [] "T2").2 = memC9) :=
  ⟨by decide, (c9_record_returns_entry.1 memC9 2 "obs" [] "T2").2 (by decide)⟩

theorem runLoop_step (p : Plugins) (n : Nat) (e : RalphLoop) (h : e.state.stopped = false) :
    runLoop p (n + 1) e = runLoop p n (runIteration p e) := by
  rw [runLoop]
  simp [h]

theorem defaultPlanner_eq (st : LoopState) (mem : Memory) :
    defaultPlanner st mem = st.objective := by
  unfold defaultPlanner
  split
  · rfl
  · split
    · split <;> rfl
    · rfl

/-- C3: with a stub actuator that always fails with a non-empty error
text and max_consecutive_failures 2, run stops after iteration 2 with
stop_failure, and the avoid_list then holds exactly the two avoidance
hints derived from the error text, one per failing iteration. -/
theorem c3_failure_scenario (err : String) (h : err ≠ "") :
    (run (pluginsC3 err) engineC3).state.stopped = true ∧
    (run (pluginsC3 err) engineC3).state.stop_reason =
      some "stop_failure: Failed 2 times consecutively" ∧
    (run (pluginsC3 err) engineC3).state.iteration = 2 ∧
    (run (pluginsC3 err) engineC3).state.attempts.length = 2 ∧
    (run (pluginsC3 err) engineC3).state.consecutive_failures = 2 ∧
    (run (pluginsC3 err) engineC3).state.avoid_list =
      ["Avoid: " ++ pyTake err 150, "Avoid: " ++ pyTake err 150] := by
  have hhint : ("Avoid: " ++ pyTake err 150) ≠ "" := append_ne_empty _ _ (by decide)
  have hconf : ¬((1 : ℚ) < mkRat 3 10) := by decide
  have h1 : engineC3.state.stopped = false := rfl
  have h2 : (runIteration (pluginsC3 err) engineC3).state.stopped = false := by
    simp [runIteration, engineC3, pluginsC3, cfgTwoFailures, defaultPlugins,
      defaultPlanner_eq, defaultNormalizer, defaultDecider, mkRalphLoop, Memory.create,
      normalizePhase, LoopState.add_fact, LoopState.add_attempt, hintAppend, attemptHint,
      extractAvoidanceHint, failureStubResult, stopWith, pyOrStr, pyStrOpt, pyOptTake,
      DecisionType.isStop, DecisionType.value, ActionOutcome.value, h, hconf, hhint]
  have h3 : (runIteration (pluginsC3 err)
      (runIteration (pluginsC3 err) engineC3)).state.stopped = true := by
    simp [runIteration, engineC3, pluginsC3, cfgTwoFailures, defaultPlugins,
      defaultPlanner_eq, defaultNormalizer, defaultDecider, mkRalphLoop, Memory.create,
      normalizePhase, LoopState.add_fact, LoopState.add_attempt, hintAppend, attemptHint,
      extractAvoidanceHint, failureStubResult, stopWith, pyOrStr, pyStrOpt, pyOptTake,
      DecisionType.isStop, DecisionType.value, ActionOutcome.value, h, hconf, hhint]
  have hfuel : engineC3.config.max_iterations = 19 + 1 := rfl
  have hrunLoop : runLoop (pluginsC3 err) (engineC3.config.max_iterations + 1) engineC3
      = runIteration (pluginsC3 err) (runIteration (pluginsC3 err) engineC3) := by
    rw [runLoop_step _ _ _ h1, hfuel, runLoop_step _ _ _ h2, runLoop_of_stopped _ _ _ h3]
  refine ⟨?_, ?_, ?_, ?_, ?_, ?_⟩ <;>
  · simp only [run, hrunLoop]
    simp [runIteration, engineC3, pluginsC3, cfgTwoFailures, defaultPlugins,
      defaultPlanner_eq, defaultNormalizer, defaultDecider, mkRalphLoop, Memory.create,
      normalizePhase, LoopState.add_fact, LoopState.add_attempt, hintAppend, attemptHint,
      extractAvoidanceHint, failureStubResult, stopWith, pyOrStr, pyStrOpt, pyOptTake,
      DecisionType.isStop, DecisionType.value, ActionOutcome.value, h, hconf, hhint]
    try decide

/-- C3 (witness): the scenario with error text boom. -/
theorem c3_failure_scenario_witness :
    ("boom" ≠ "") ∧
    ((run (pluginsC3 "boom") engineC3).state.stopped = true ∧
     (run (pluginsC3 "boom") engineC3).state.stop_reason =
       some "stop_failure: Failed 2 times consecutively" ∧
     (run (pluginsC3 "boom") engineC3).state.iteration = 2 ∧
     (run (pluginsC3 "boom") engineC3).state.attempts.length = 2 ∧
     (run (pluginsC3 "boom") engineC3).state.consecutive_failures = 2 ∧
     (run (pluginsC3 "boom") engineC3).state.avoid_list =
       ["Avoid: " ++ pyTake "boom" 150, "Avoid: " ++ pyTake "boom" 150]) :=
  ⟨by decide, c3_failure_scenario "boom" (by decide)⟩

end Ralph
